import Mathlib

/-!
Shallow embedding of the WhatsApp OTP service (src/index.js) and verification of
the frozen claims about it.

The store `otpStorage` is a JavaScript `Map`; we model it as an association list
in insertion order (`Map.set` on a fresh key appends, on an existing key updates
in place; iteration follows insertion order).  A single logical time `now`
stands for the `Date.now()` clock reads of one request handler.
-/

namespace SimpleOtp

/-- An OTP record as stored in `otpStorage` (src/index.js lines 174-180). -/
structure OtpRecord where
  phoneNumber : String
  otp : String
  expiresAt : Nat
  verified : Bool
  verifiedAt : Option Nat
  createdAt : Nat
deriving Repr, DecidableEq

/-- The `otpStorage` map: entries `(id, record)` in insertion order. -/
abbrev Store := List (String × OtpRecord)

/-- JavaScript truthiness of an optional string request field: present and
non-empty. -/
def truthy : Option String → Bool
  | none => false
  | some s => s != ""

/-- `Map.get`: the record stored under `id`, if any. -/
def storeGet (store : Store) (id : String) : Option OtpRecord :=
  (store.find? fun e => e.1 == id).map Prod.snd

/-- `Map.set`: replace the entry at the key if present (keeping its position),
else append. -/
def storeSet : Store → String → OtpRecord → Store
  | [], id, r => [(id, r)]
  | (k, v) :: rest, id, r =>
    if k = id then (id, r) :: rest else (k, v) :: storeSet rest id r

/-- Digits kept by `phoneNumber.replace(/\D/g, '')` (src/index.js line 25). -/
def stripNonDigits (s : String) : String :=
  String.mk (s.data.filter Char.isDigit)

/-- JavaScript `String.prototype.startsWith`, on the character lists. -/
def strStartsWith (s t : String) : Bool :=
  t.data.isPrefixOf s.data

/-- `formatPhoneNumber` (src/index.js lines 24-31): strip non-digits, prepend the
default country code `"91"` when exactly 10 digits remain and they do not
already start with `"91"`, then append `"@c.us"`. -/
def formatPhoneNumber (phoneNumber : String) : String :=
  let formatted := stripNonDigits phoneNumber
  let formatted2 :=
    if !strStartsWith formatted "91" && formatted.length == 10
    then "91" ++ formatted
    else formatted
  formatted2 ++ "@c.us"

/-- Normalization exactly as claim C3 words it: whenever exactly 10 digits
remain, the country code is prepended unconditionally. -/
def formatPhoneNumberClaimed (s : String) : String :=
  let d := stripNonDigits s
  (if d.length = 10 then "91" ++ d else d) ++ "@c.us"

/-- Normalization as amended: the 10-digit country-code step applies only when
the digits do not already start with `"91"`. -/
def formatPhoneNumberAmended (s : String) : String :=
  let d := stripNonDigits s
  (if strStartsWith d "91" = false ∧ d.length = 10 then "91" ++ d else d)
    ++ "@c.us"

/-- C3, counterexample: on the 10-digit input `"9123456789"`, which already
starts with `"91"`, the code does not prepend the country code, while the claim
as stated requires it to. -/
theorem c3_countryCode_cex :
    stripNonDigits "9123456789" = "9123456789" ∧
    (stripNonDigits "9123456789").length = 10 ∧
    formatPhoneNumber "9123456789" = "9123456789@c.us" ∧
    formatPhoneNumberClaimed "9123456789" = "919123456789@c.us" ∧
    formatPhoneNumber "9123456789" ≠ formatPhoneNumberClaimed "9123456789" := by
  decide

/-- C3, amended: normalization strips all non-digit characters, prepends the
default country code exactly when the remaining digits form a 10-digit sequence
not already starting with `"91"`, and appends the `"@c.us"` domain suffix; it is
a pure total function on all input strings. -/
theorem c3_format_amended (s : String) :
    formatPhoneNumber s = formatPhoneNumberAmended s := by
  unfold formatPhoneNumber formatPhoneNumberAmended
  by_cases h1 : strStartsWith (stripNonDigits s) "91"
  · simp [h1]
  · by_cases h2 : (stripNonDigits s).length = 10 <;>
      simp [h1, h2, Bool.not_eq_true]

/-- Outcome of the `/api/send-otp` handler. -/
inductive IssueResult
  | success (otpId : String) (phoneNumber : String)
  | missingPhone
  | notConnected
  | deliveryFailed
deriving Repr, DecidableEq

/-- The `/api/send-otp` handler (src/index.js lines 141-203).  `connected` models
`whatsappClient && whatsappConnected`; `sendOk` models whether
`whatsappClient.sendMessage` resolves; `otp` and `otpId` model the generated
code and id; `now` models `Date.now()`.  A record is stored only on send
success, with `expiresAt = now + 5 * 60 * 1000`. -/
def issueOtp (store : Store) (connected sendOk : Bool) (phoneNumber : Option String)
    (otp otpId : String) (now : Nat) : IssueResult × Store :=
  if !truthy phoneNumber then (.missingPhone, store)
  else if !connected then (.notConnected, store)
  else if !sendOk then (.deliveryFailed, store)
  else
    let record : OtpRecord :=
      { phoneNumber := phoneNumber.getD "", otp := otp
        expiresAt := now + 5 * 60 * 1000, verified := false
        verifiedAt := none, createdAt := now }
    (.success otpId (phoneNumber.getD ""), storeSet store otpId record)

/-- An entry passes the phone-number scan's time-independent filter
(src/index.js lines 225-227): matching phone number and not verified. -/
def qualifies (phoneNumber : String) (e : String × OtpRecord) : Bool :=
  e.2.phoneNumber == phoneNumber && !e.2.verified

/-- The largest `createdAt` among qualifying entries (0 when there are none). -/
def maxQ (phoneNumber : String) (store : Store) : Nat :=
  store.foldr (fun e m => if qualifies phoneNumber e then max e.2.createdAt m else m) 0

/-- One iteration of the phone-number scan (src/index.js lines 224-232); the
accumulator is `(otpRecord, latestTime)`, started at `(null, 0)`.  The three
conjuncts appear in the source's order. -/
def scanStep (phoneNumber : String) (acc : Option (String × OtpRecord) × Nat)
    (e : String × OtpRecord) : Option (String × OtpRecord) × Nat :=
  if e.2.phoneNumber == phoneNumber && decide (acc.2 < e.2.createdAt) && !e.2.verified
  then (some e, e.2.createdAt)
  else acc

/-- The whole phone-number scan: the entry left in `otpRecord` after iterating
over all of `otpStorage`. -/
def findLatestEntry (store : Store) (phoneNumber : String) :
    Option (String × OtpRecord) :=
  (store.foldl (scanStep phoneNumber) (none, 0)).1

/-- Record resolution of the `/api/verify-otp` handler (src/index.js lines
214-233): by id when `otpId` is truthy, else by the phone-number scan when
`phoneNumber` is truthy, else nothing. -/
def resolveRecord (store : Store) (otpId phoneNumber : Option String) :
    Option (String × OtpRecord) :=
  if truthy otpId then store.find? (fun e => e.1 == otpId.getD "")
  else if truthy phoneNumber then findLatestEntry store (phoneNumber.getD "")
  else none

/-- Outcome of the `/api/verify-otp` handler. -/
inductive VerifyResult
  | success (phoneNumber : String) (verifiedAt : Nat)
  | missingOtp
  | notFound
  | expired
  | alreadyVerified
  | invalidOtp
deriving Repr, DecidableEq

/-- The `/api/verify-otp` handler (src/index.js lines 206-269): missing-code
guard, record resolution, then in order the expiry, already-verified and
code-mismatch checks; on success the resolved record is marked verified in the
store. -/
def verifyOtp (store : Store) (now : Nat) (otpId phoneNumber otp : Option String) :
    VerifyResult × Store :=
  if !truthy otp then (.missingOtp, store)
  else
    match resolveRecord store otpId phoneNumber with
    | none => (.notFound, store)
    | some (id, record) =>
      if record.expiresAt < now then (.expired, store)
      else if record.verified then (.alreadyVerified, store)
      else if !(record.otp == otp.getD "") then (.invalidOtp, store)
      else
        (.success record.phoneNumber now,
         storeSet store id { record with verified := true, verifiedAt := some now })

/-- The periodic cleanup sweep (src/index.js lines 293-300): delete every entry
with `expiresAt < now`. -/
def sweepExpired (store : Store) (now : Nat) : Store :=
  store.filter fun e => !decide (e.2.expiresAt < now)

/-! ### Store lemmas -/

lemma storeGet_cons (e : String × OtpRecord) (rest : Store) (id : String) :
    storeGet (e :: rest) id = if e.1 = id then some e.2 else storeGet rest id := by
  obtain ⟨k, v⟩ := e
  by_cases h : k = id <;> simp [storeGet, List.find?_cons, h]

lemma storeGet_storeSet (store : Store) (k : String) (v : OtpRecord) (id : String) :
    storeGet (storeSet store k v) id = if id = k then some v else storeGet store id := by
  induction store with
  | nil =>
    show storeGet [(k, v)] id = _
    by_cases h : id = k
    · subst h; simp [storeGet_cons]
    · rw [storeGet_cons, if_neg (fun hh => h hh.symm), if_neg h]
  | cons e rest ih =>
    obtain ⟨k', v'⟩ := e
    simp only [storeSet]
    by_cases hk : k' = k
    · rw [if_pos hk]
      subst hk
      rw [storeGet_cons, storeGet_cons]
      by_cases hid : id = k'
      · subst hid
        rw [if_pos rfl, if_pos rfl]
      · rw [if_neg (fun hh => hid hh.symm), if_neg hid,
          if_neg (fun hh => hid hh.symm)]
    · rw [if_neg hk, storeGet_cons, storeGet_cons]
      by_cases hid : k' = id
      · have hidk : ¬ id = k := fun h => hk (hid.trans h)
        rw [if_pos hid, if_neg hidk, if_pos hid]
      · rw [if_neg hid, if_neg hid, ih]

lemma storeSet_length (store : Store) (k : String) (v : OtpRecord)
    (hfresh : ∀ e ∈ store, e.1 ≠ k) :
    (storeSet store k v).length = store.length + 1 := by
  induction store with
  | nil => rfl
  | cons e rest ih =>
    have hne : e.1 ≠ k := hfresh e (List.mem_cons_self e rest)
    obtain ⟨k', v'⟩ := e
    simp only [storeSet, if_neg hne, List.length_cons]
    rw [ih fun x hx => hfresh x (List.mem_cons_of_mem _ hx)]

lemma storeGet_eq_some_iff_find? (store : Store) (id : String) (r : OtpRecord) :
    storeGet store id = some r ↔
      (store.find? fun e => e.1 == id) = some (id, r) := by
  constructor
  · intro h
    unfold storeGet at h
    cases hf : store.find? fun e => e.1 == id with
    | none => rw [hf] at h; cases h
    | some e =>
      obtain ⟨k, v⟩ := e
      rw [hf] at h
      have hk : k = id := by simpa using List.find?_some hf
      have hv : v = r := by simpa using h
      rw [hk, hv]
  · intro h
    unfold storeGet
    rw [h]
    rfl

lemma storeGet_some_mem (store : Store) (id : String) (r : OtpRecord)
    (h : storeGet store id = some r) : (id, r) ∈ store :=
  List.mem_of_find?_eq_some ((storeGet_eq_some_iff_find? store id r).mp h)

lemma storeGet_of_mem (store : Store) (id : String) (r : OtpRecord)
    (hnd : (store.map Prod.fst).Nodup) (hm : (id, r) ∈ store) :
    storeGet store id = some r := by
  induction store with
  | nil => cases hm
  | cons e rest ih =>
    rw [List.map_cons, List.nodup_cons] at hnd
    rcases List.mem_cons.mp hm with heq | hm'
    · rw [storeGet_cons, ← heq]
      simp
    · have hne : e.1 ≠ id := by
        intro h
        exact hnd.1 (by rw [h]; exact List.mem_map_of_mem Prod.fst hm')
      rw [storeGet_cons, if_neg hne]
      exact ih hnd.2 hm'

lemma mem_unique_of_nodup (store : Store) (hnd : (store.map Prod.fst).Nodup)
    (id : String) (r1 r2 : OtpRecord)
    (h1 : (id, r1) ∈ store) (h2 : (id, r2) ∈ store) : r1 = r2 := by
  have g1 := storeGet_of_mem store id r1 hnd h1
  have g2 := storeGet_of_mem store id r2 hnd h2
  rw [g1] at g2
  exact Option.some.inj g2

/-! ### Phone-number scan lemmas -/

lemma scanStep_eq (p : String) (acc : Option (String × OtpRecord) × Nat)
    (e : String × OtpRecord) :
    scanStep p acc e =
      if qualifies p e = true ∧ acc.2 < e.2.createdAt
      then (some e, e.2.createdAt) else acc := by
  unfold scanStep qualifies
  by_cases h1 : (e.2.phoneNumber == p) = true <;>
    by_cases h2 : acc.2 < e.2.createdAt <;>
      by_cases h3 : e.2.verified = true <;>
        simp [h1, h2, h3]

lemma maxQ_nil (p : String) : maxQ p [] = 0 := rfl

lemma maxQ_cons (p : String) (e : String × OtpRecord) (rest : Store) :
    maxQ p (e :: rest) =
      if qualifies p e then max e.2.createdAt (maxQ p rest) else maxQ p rest := rfl

lemma scan_foldl (p : String) (l : Store) :
    ∀ (cur : Option (String × OtpRecord)) (t : Nat),
      (l.foldl (scanStep p) (cur, t)).1 =
        if t < maxQ p l
        then l.find? fun e => qualifies p e && maxQ p l == e.2.createdAt
        else cur := by
  induction l with
  | nil =>
    intro cur t
    simp [maxQ_nil]
  | cons e rest ih =>
    intro cur t
    rw [List.foldl_cons, scanStep_eq]
    by_cases hq : qualifies p e = true
    · by_cases ht : t < e.2.createdAt
      · rw [if_pos ⟨hq, ht⟩, ih]
        by_cases hrest : e.2.createdAt < maxQ p rest
        · have hmax : maxQ p (e :: rest) = maxQ p rest := by
            rw [maxQ_cons, if_pos hq]
            exact Nat.max_eq_right (le_of_lt hrest)
          rw [if_pos hrest, hmax, if_pos (lt_trans ht hrest),
            List.find?_cons_of_neg _ (by simp [hq]; omega)]
        · have hmax : maxQ p (e :: rest) = e.2.createdAt := by
            rw [maxQ_cons, if_pos hq]
            exact Nat.max_eq_left (Nat.not_lt.mp hrest)
          rw [if_neg hrest, hmax, if_pos ht,
            List.find?_cons_of_pos _ (by simp [hq])]
      · rw [if_neg fun h => ht h.2, ih]
        by_cases hb : t < maxQ p rest
        · have hmax : maxQ p (e :: rest) = maxQ p rest := by
            rw [maxQ_cons, if_pos hq]
            exact Nat.max_eq_right (by omega)
          rw [if_pos hb, hmax, if_pos hb,
            List.find?_cons_of_neg _ (by simp [hq]; omega)]
        · have hmax : ¬ t < maxQ p (e :: rest) := by
            rw [maxQ_cons, if_pos hq]
            exact Nat.not_lt.mpr (max_le (Nat.not_lt.mp ht) (Nat.not_lt.mp hb))
          rw [if_neg hb, if_neg hmax]
    · have hq' : qualifies p e = false := by simpa using hq
      rw [if_neg fun h => hq h.1, ih]
      have hmax : maxQ p (e :: rest) = maxQ p rest := by
        rw [maxQ_cons, if_neg hq]
      rw [hmax]
      by_cases hb : t < maxQ p rest
      · rw [if_pos hb, if_pos hb, List.find?_cons_of_neg _ (by simp [hq'])]
      · rw [if_neg hb, if_neg hb]

lemma findLatestEntry_eq (store : Store) (p : String) :
    findLatestEntry store p =
      if 0 < maxQ p store
      then store.find? fun e => qualifies p e && maxQ p store == e.2.createdAt
      else none :=
  scan_foldl p store none 0

lemma findLatestEntry_sound (store : Store) (p : String) (id : String)
    (r : OtpRecord) (h : findLatestEntry store p = some (id, r)) :
    (id, r) ∈ store ∧ r.phoneNumber = p ∧ r.verified = false ∧
      r.createdAt = maxQ p store := by
  rw [findLatestEntry_eq] at h
  by_cases hc : 0 < maxQ p store
  · rw [if_pos hc] at h
    have hmem := List.mem_of_find?_eq_some h
    have hp := List.find?_some h
    simp only [qualifies, Bool.and_eq_true, beq_iff_eq, Bool.not_eq_true'] at hp
    exact ⟨hmem, hp.1.1, hp.1.2, hp.2.symm⟩
  · rw [if_neg hc] at h
    cases h

lemma maxQ_eq_zero (p : String) (store : Store)
    (h : ∀ e ∈ store, qualifies p e = false) :
    maxQ p store = 0 := by
  induction store with
  | nil => rfl
  | cons a rest ih =>
    rw [maxQ_cons, if_neg (by simp [h a (List.mem_cons_self a rest)])]
    exact ih fun e he => h e (List.mem_cons_of_mem _ he)

lemma findLatestEntry_eq_none (store : Store) (p : String)
    (h : ∀ e ∈ store, qualifies p e = false) :
    findLatestEntry store p = none := by
  rw [findLatestEntry_eq, maxQ_eq_zero p store h]
  simp

/-! ### Verify-handler lemmas -/

lemma verifyOtp_eq (store : Store) (now : Nat) (ids pn : Option String)
    (code : String) (hcode : code ≠ "") :
    verifyOtp store now ids pn (some code) =
      match resolveRecord store ids pn with
      | none => (.notFound, store)
      | some (id, r) =>
        if r.expiresAt < now then (.expired, store)
        else if r.verified then (.alreadyVerified, store)
        else if !(r.otp == code) then (.invalidOtp, store)
        else (.success r.phoneNumber now,
              storeSet store id { r with verified := true, verifiedAt := some now }) := by
  have htr : truthy (some code) = true := by simp [truthy, hcode]
  unfold verifyOtp
  rw [htr]
  simp

lemma verifyOtp_by_id (store : Store) (now : Nat) (id : String) (pn : Option String)
    (code : String) (r : OtpRecord) (hid : id ≠ "") (hcode : code ≠ "")
    (hget : storeGet store id = some r) :
    verifyOtp store now (some id) pn (some code) =
      if r.expiresAt < now then (.expired, store)
      else if r.verified then (.alreadyVerified, store)
      else if !(r.otp == code) then (.invalidOtp, store)
      else (.success r.phoneNumber now,
            storeSet store id { r with verified := true, verifiedAt := some now }) := by
  have hidt : truthy (some id) = true := by simp [truthy, hid]
  have hres : resolveRecord store (some id) pn = some (id, r) := by
    rw [resolveRecord, if_pos hidt]
    simpa using (storeGet_eq_some_iff_find? store id r).mp hget
  rw [verifyOtp_eq store now (some id) pn code hcode, hres]

lemma resolveRecord_mem (store : Store) (ids pns : Option String) (id : String)
    (r : OtpRecord) (h : resolveRecord store ids pns = some (id, r)) :
    (id, r) ∈ store := by
  unfold resolveRecord at h
  by_cases h1 : truthy ids = true
  · rw [if_pos h1] at h
    exact List.mem_of_find?_eq_some h
  · rw [if_neg h1] at h
    by_cases h2 : truthy pns = true
    · rw [if_pos h2] at h
      exact (findLatestEntry_sound store _ id r h).1
    · rw [if_neg h2] at h
      cases h

lemma verifyOtp_store_cases (store : Store) (now : Nat)
    (ids pns otps : Option String) :
    (verifyOtp store now ids pns otps).2 = store ∨
    ∃ id r, resolveRecord store ids pns = some (id, r) ∧
      (verifyOtp store now ids pns otps).2 =
        storeSet store id { r with verified := true, verifiedAt := some now } := by
  unfold verifyOtp
  by_cases h : truthy otps = true
  · rw [h]
    simp only [Bool.not_true]
    rw [if_neg (by simp)]
    cases hres : resolveRecord store ids pns with
    | none => simp
    | some e =>
      obtain ⟨id, r⟩ := e
      by_cases h1 : r.expiresAt < now
      · left; simp [h1]
      · by_cases h2 : r.verified = true
        · left; simp [h1, h2]
        · by_cases h3 : (r.otp == otps.getD "") = true
          · right
            exact ⟨id, r, rfl, by simp [h1, h2, h3]⟩
          · left; simp [h1, h2, h3]
  · have h' : truthy otps = false := by simpa using h
    rw [h']
    left
    rfl

/-! ### Claim theorems -/

/-- C1, counterexample: a record is issued and stored, verification with the
correct code at a time not after `expiresAt` succeeds, yet the second call with
the same id afterwards (at time `301 > expiresAt = 300`) returns `expired`, not
`alreadyVerified`, because the handler checks expiry first. -/
theorem c1_second_call_expired_cex :
    (verifyOtp [("a", (⟨"p", "123456", 300, false, none, 10⟩ : OtpRecord))] 100
        (some "a") none (some "123456")).1 = .success "p" 100 ∧
    (verifyOtp
        (verifyOtp [("a", (⟨"p", "123456", 300, false, none, 10⟩ : OtpRecord))] 100
            (some "a") none (some "123456")).2 301
        (some "a") none (some "123456")).1 = .expired ∧
    (verifyOtp
        (verifyOtp [("a", (⟨"p", "123456", 300, false, none, 10⟩ : OtpRecord))] 100
            (some "a") none (some "123456")).2 301
        (some "a") none (some "123456")).1 ≠ .alreadyVerified := by
  decide

/-- C1, amended: for every record issued and stored, `verifyOtp` by its id with
the correct code at a time not after `expiresAt` and before any prior
successful verification succeeds and marks the record consumed; a second call
with the same id afterwards returns `alreadyVerified` when made at a time not
after `expiresAt` (after `expiresAt` it returns `expired`); in either case no
second call ever succeeds, so success occurs exactly once per record. -/
theorem c1_verify_once (store : Store) (id code : String) (pn pn2 : Option String)
    (r : OtpRecord) (now now2 : Nat) (hid : id ≠ "") (hcode : code ≠ "")
    (hget : storeGet store id = some r) (hc : r.otp = code)
    (hv : r.verified = false) (hexp : now ≤ r.expiresAt) :
    (verifyOtp store now (some id) pn (some code)).1 = .success r.phoneNumber now ∧
    storeGet (verifyOtp store now (some id) pn (some code)).2 id =
      some { r with verified := true, verifiedAt := some now } ∧
    (now2 ≤ r.expiresAt →
      (verifyOtp (verifyOtp store now (some id) pn (some code)).2 now2
          (some id) pn2 (some code)).1 = .alreadyVerified) ∧
    (∀ (t u : Nat) (q : String),
      (verifyOtp (verifyOtp store now (some id) pn (some code)).2 t
          (some id) pn2 (some code)).1 ≠ .success q u) := by
  have h1 := verifyOtp_by_id store now id pn code r hid hcode hget
  rw [if_neg (by omega), if_neg (by simp [hv]), if_neg (by simp [hc])] at h1
  have hget2 : storeGet (verifyOtp store now (some id) pn (some code)).2 id =
      some { r with verified := true, verifiedAt := some now } := by
    rw [h1]
    simp [storeGet_storeSet]
  refine ⟨by rw [h1], hget2, ?_, ?_⟩
  · intro hexp2
    rw [verifyOtp_by_id _ now2 id pn2 code _ hid hcode hget2]
    rw [if_neg (by simp; omega), if_pos (by simp)]
  · intro t u q
    rw [verifyOtp_by_id _ t id pn2 code _ hid hcode hget2]
    by_cases ht : ({ r with verified := true, verifiedAt := some now } :
        OtpRecord).expiresAt < t
    · rw [if_pos ht]; simp
    · rw [if_neg ht, if_pos (by simp)]; simp

/-- C1, witness: a concrete issued record is verified successfully once and the
immediate second call reports `alreadyVerified`. -/
theorem c1_verify_once_witness :
    (verifyOtp [("a", (⟨"p", "123456", 300, false, none, 10⟩ : OtpRecord))] 100
        (some "a") none (some "123456")).1 = .success "p" 100 ∧
    (verifyOtp
        (verifyOtp [("a", (⟨"p", "123456", 300, false, none, 10⟩ : OtpRecord))] 100
            (some "a") none (some "123456")).2 200
        (some "a") none (some "123456")).1 = .alreadyVerified := by
  have h := c1_verify_once [("a", ⟨"p", "123456", 300, false, none, 10⟩)] "a"
    "123456" none none ⟨"p", "123456", 300, false, none, 10⟩ 100 200
    (by decide) (by decide) (by decide) rfl rfl (by decide)
  exact ⟨h.1, h.2.2.1 (by decide)⟩

/-- C2: for every store, time and verification request, the consume checks run
in the order existence, expiry, already-consumed, code mismatch: a missing
record yields `notFound`; an expired record yields `expired` regardless of its
consumed flag and of the submitted code; a consumed unexpired record yields
`alreadyVerified` regardless of the code; a code mismatch on a live record
yields `invalidOtp`; otherwise the verification succeeds. -/
theorem c2_check_order (store : Store) (now : Nat) (ids pn : Option String)
    (code : String) (hcode : code ≠ "") :
    (resolveRecord store ids pn = none →
      (verifyOtp store now ids pn (some code)).1 = .notFound) ∧
    (∀ id r, resolveRecord store ids pn = some (id, r) → r.expiresAt < now →
      (verifyOtp store now ids pn (some code)).1 = .expired) ∧
    (∀ id r, resolveRecord store ids pn = some (id, r) → ¬ r.expiresAt < now →
      r.verified = true →
      (verifyOtp store now ids pn (some code)).1 = .alreadyVerified) ∧
    (∀ id r, resolveRecord store ids pn = some (id, r) → ¬ r.expiresAt < now →
      r.verified = false → r.otp ≠ code →
      (verifyOtp store now ids pn (some code)).1 = .invalidOtp) ∧
    (∀ id r, resolveRecord store ids pn = some (id, r) → ¬ r.expiresAt < now →
      r.verified = false → r.otp = code →
      (verifyOtp store now ids pn (some code)).1 = .success r.phoneNumber now) := by
  rw [verifyOtp_eq store now ids pn code hcode]
  refine ⟨?_, ?_, ?_, ?_, ?_⟩
  · intro h; rw [h]
  · intro id r h hex; rw [h]; simp [hex]
  · intro id r h hex hver; rw [h]; simp [hex, hver]
  · intro id r h hex hver hne; rw [h]; simp [hex, hver, hne]
  · intro id r h hex hver heq; rw [h]; simp [hex, hver, heq]

/-- C2, witness: a record that is both expired and already consumed reports
`expired`, showing the expiry check runs before the consumed check. -/
theorem c2_check_order_witness :
    (verifyOtp [("a", (⟨"p", "123456", 300, true, some 50, 10⟩ : OtpRecord))] 500
        (some "a") none (some "000000")).1 = .expired :=
  (c2_check_order [("a", ⟨"p", "123456", 300, true, some 50, 10⟩)] 500 (some "a")
      none "000000" (by decide)).2.1 "a" ⟨"p", "123456", 300, true, some 50, 10⟩
    (by decide) (by decide)

/-- The phone-number lookup as amended for C4: among entries with the matching
address and `consumed == false`, the earliest-encountered one whose `createdAt`
equals the maximum, provided that maximum is positive; otherwise no record. -/
def findLatestPendingAmended (store : Store) (p : String) :
    Option (String × OtpRecord) :=
  if 0 < maxQ p store
  then store.find? fun e => qualifies p e && maxQ p store == e.2.createdAt
  else none

/-- C4, counterexample: two qualifying records for the same address share
`createdAt = 100`; the scan returns the one encountered first (`"a"`), not the
one encountered last (`"b"`) as the claim states, because the comparison
`record.createdAt > latestTime` is strict. -/
theorem c4_tie_first_cex :
    findLatestEntry
        [("a", (⟨"p", "111111", 1000, false, none, 100⟩ : OtpRecord)),
         ("b", (⟨"p", "222222", 1000, false, none, 100⟩ : OtpRecord))] "p" =
      some ("a", (⟨"p", "111111", 1000, false, none, 100⟩ : OtpRecord)) ∧
    (⟨"p", "111111", 1000, false, none, 100⟩ : OtpRecord).createdAt =
      (⟨"p", "222222", 1000, false, none, 100⟩ : OtpRecord).createdAt ∧
    findLatestEntry
        [("a", (⟨"p", "111111", 1000, false, none, 100⟩ : OtpRecord)),
         ("b", (⟨"p", "222222", 1000, false, none, 100⟩ : OtpRecord))] "p" ≠
      some ("b", (⟨"p", "222222", 1000, false, none, 100⟩ : OtpRecord)) := by
  decide

/-- C4, amended: the lookup of the latest pending record returns, among the
entries with `subjectAddress` equal to the address and `consumed == false`, the
one encountered first during the scan among those with the maximum `createdAt`
(ties are broken in favor of the record encountered first, not last), provided
that maximum exceeds the scan's initial `latestTime` of zero; otherwise it
returns nothing. -/
theorem c4_scan_maximum (store : Store) (p : String) :
    findLatestEntry store p = findLatestPendingAmended store p :=
  findLatestEntry_eq store p

/-- C5, counterexample: with an old non-expired record and a newer expired one
for the same address, the scan at time 400 still selects the newer expired
record — it does not restrict the scan to records non-expired at lookup time —
and the verification therefore reports `expired`. -/
theorem c5_expired_selected_cex :
    findLatestEntry
        [("old", (⟨"p", "111111", 1000000, false, none, 100⟩ : OtpRecord)),
         ("new", (⟨"p", "222222", 150, false, none, 200⟩ : OtpRecord))] "p" =
      some ("new", (⟨"p", "222222", 150, false, none, 200⟩ : OtpRecord)) ∧
    (⟨"p", "222222", 150, false, none, 200⟩ : OtpRecord).expiresAt < 400 ∧
    (⟨"p", "111111", 1000000, false, none, 100⟩ : OtpRecord).phoneNumber = "p" ∧
    (⟨"p", "111111", 1000000, false, none, 100⟩ : OtpRecord).verified = false ∧
    ¬ (⟨"p", "111111", 1000000, false, none, 100⟩ : OtpRecord).expiresAt < 400 ∧
    (verifyOtp
        [("old", (⟨"p", "111111", 1000000, false, none, 100⟩ : OtpRecord)),
         ("new", (⟨"p", "222222", 150, false, none, 200⟩ : OtpRecord))] 400 none
        (some "p") (some "111111")).1 = .expired := by
  decide

/-- C5, amended: the latest-pending lookup selects only among records for the
address that are non-consumed — expiry plays no part in the selection and is
only checked afterwards on the selected record; given records created at t=100
and t=200 for the same address, it returns the t=200 record. -/
theorem c5_scan_members (store : Store) (p : String) :
    (∀ id r, findLatestEntry store p = some (id, r) →
      (id, r) ∈ store ∧ r.phoneNumber = p ∧ r.verified = false) ∧
    (∀ (i1 i2 : String) (r1 r2 : OtpRecord),
      r1.phoneNumber = p → r2.phoneNumber = p →
      r1.verified = false → r2.verified = false →
      r1.createdAt = 100 → r2.createdAt = 200 →
      findLatestEntry [(i1, r1), (i2, r2)] p = some (i2, r2)) := by
  refine ⟨?_, ?_⟩
  · intro id r h
    have hs := findLatestEntry_sound store p id r h
    exact ⟨hs.1, hs.2.1, hs.2.2.1⟩
  · intro i1 i2 r1 r2 h1 h2 h3 h4 h5 h6
    simp [findLatestEntry, scanStep, h1, h2, h3, h4, h5, h6]

/-- C5, witness: concrete records created at t=100 and t=200 for the same
address; the scan returns the t=200 one. -/
theorem c5_scan_members_witness :
    findLatestEntry
        [("a", (⟨"p", "111111", 1000, false, none, 100⟩ : OtpRecord)),
         ("b", (⟨"p", "222222", 2000, false, none, 200⟩ : OtpRecord))] "p" =
      some ("b", (⟨"p", "222222", 2000, false, none, 200⟩ : OtpRecord)) :=
  (c5_scan_members
      [("a", ⟨"p", "111111", 1000, false, none, 100⟩),
       ("b", ⟨"p", "222222", 2000, false, none, 200⟩)] "p").2 "a" "b"
    ⟨"p", "111111", 1000, false, none, 100⟩
    ⟨"p", "222222", 2000, false, none, 200⟩ rfl rfl rfl rfl rfl rfl

/-- C6: with a fresh id, `issueOtp` stores a record if and only if delivery
succeeded: when `send` fails the result is `deliveryFailed` and the store is
unchanged; the stored-record count grows by one exactly when the phone number
was present, the client connected, and the send succeeded, and otherwise the
store is untouched. -/
theorem c6_store_iff_delivered (store : Store) (connected sendOk : Bool)
    (pn : Option String) (otp otpId : String) (now : Nat)
    (hfresh : ∀ e ∈ store, e.1 ≠ otpId) :
    (truthy pn = true → connected = true → sendOk = false →
      (issueOtp store connected sendOk pn otp otpId now).1 = .deliveryFailed ∧
      (issueOtp store connected sendOk pn otp otpId now).2 = store) ∧
    ((issueOtp store connected sendOk pn otp otpId now).2.length
        = store.length + 1 ↔
      truthy pn = true ∧ connected = true ∧ sendOk = true) ∧
    (¬ (truthy pn = true ∧ connected = true ∧ sendOk = true) →
      (issueOtp store connected sendOk pn otp otpId now).2 = store) := by
  cases hpn : truthy pn <;> cases connected <;> cases sendOk <;>
    simp [issueOtp, hpn, storeSet_length store otpId _ hfresh]

/-- C6, witness: a concrete failed send returns `deliveryFailed` and leaves the
store unchanged; a concrete successful send grows the store by one. -/
theorem c6_store_iff_delivered_witness :
    ((issueOtp [] true false (some "9876543210") "123456" "id1" 5).1 =
        .deliveryFailed ∧
      (issueOtp [] true false (some "9876543210") "123456" "id1" 5).2 = []) ∧
    (issueOtp [] true true (some "9876543210") "123456" "id1" 5).2.length =
      ([] : Store).length + 1 := by
  refine ⟨?_, ?_⟩
  · exact (c6_store_iff_delivered [] true false (some "9876543210") "123456"
      "id1" 5 (by simp)).1 rfl rfl rfl
  · exact (c6_store_iff_delivered [] true true (some "9876543210") "123456"
      "id1" 5 (by simp)).2.1.mpr ⟨rfl, rfl, rfl⟩

/-- C7: every record created by `issueOtp` has
`expiresAt = createdAt + 5 * 60 * 1000` (five minutes in milliseconds), hence
`expiresAt > createdAt`; a successful verification never changes `createdAt` or
`expiresAt` of any stored record, and the sweep only removes records, never
altering one. -/
theorem c7_timestamps :
    (∀ store connected sendOk pn otp otpId now p2,
      (issueOtp store connected sendOk pn otp otpId now).1
          = IssueResult.success otpId p2 →
      ∃ r, storeGet (issueOtp store connected sendOk pn otp otpId now).2 otpId
            = some r ∧
        r.expiresAt = r.createdAt + 5 * 60 * 1000 ∧ r.createdAt < r.expiresAt) ∧
    (∀ store now ids pns otps id r2,
      (store.map Prod.fst).Nodup →
      storeGet (verifyOtp store now ids pns otps).2 id = some r2 →
      ∃ r, storeGet store id = some r ∧ r2.createdAt = r.createdAt ∧
        r2.expiresAt = r.expiresAt) ∧
    (∀ store now id r, storeGet (sweepExpired store now) id = some r →
      (id, r) ∈ store) := by
  refine ⟨?_, ?_, ?_⟩
  · intro store connected sendOk pn otp otpId now p2 h
    cases hpn : truthy pn <;> cases connected <;> cases sendOk <;>
      simp [issueOtp, hpn] at h
    refine ⟨{ phoneNumber := pn.getD "", otp := otp,
              expiresAt := now + 5 * 60 * 1000, verified := false,
              verifiedAt := none, createdAt := now }, ?_, rfl,
            by show now < now + 5 * 60 * 1000; omega⟩
    simp [issueOtp, hpn, storeGet_storeSet]
  · intro store now ids pns otps id r2 hnd hget2
    rcases verifyOtp_store_cases store now ids pns otps with hsame | ⟨i, r, hres, hset⟩
    · rw [hsame] at hget2
      exact ⟨r2, hget2, rfl, rfl⟩
    · rw [hset, storeGet_storeSet] at hget2
      by_cases hida : id = i
      · rw [if_pos hida] at hget2
        have hmem := resolveRecord_mem store ids pns i r hres
        have hget : storeGet store id = some r := by
          rw [hida]; exact storeGet_of_mem store i r hnd hmem
        refine ⟨r, hget, ?_, ?_⟩ <;> rw [← Option.some.inj hget2]
      · rw [if_neg hida] at hget2
        exact ⟨r2, hget2, rfl, rfl⟩
  · intro store now id r h
    have hm := storeGet_some_mem _ id r h
    exact (List.mem_filter.mp hm).1

/-- C7, witness: a concrete successful issuance stores a record whose expiry is
exactly five minutes after its creation time. -/
theorem c7_timestamps_witness :
    ∃ r, storeGet (issueOtp [] true true (some "7") "123456" "id1" 1000).2 "id1"
          = some r ∧
      r.expiresAt = r.createdAt + 5 * 60 * 1000 ∧ r.createdAt < r.expiresAt :=
  c7_timestamps.1 [] true true (some "7") "123456" "id1" 1000 "7" (by decide)

/-- C8: the periodic sweep keeps exactly the records with `expiresAt ≥ now`,
removing every record with `expiresAt < now` and no others; after a sweep at
`now = expiresAt + 1`, a get of the record's id returns nothing. -/
theorem c8_sweep_exact :
    (∀ store now id r, (id, r) ∈ sweepExpired store now ↔
      ((id, r) ∈ store ∧ ¬ r.expiresAt < now)) ∧
    (∀ store id r, (store.map Prod.fst).Nodup → storeGet store id = some r →
      storeGet (sweepExpired store (r.expiresAt + 1)) id = none) := by
  refine ⟨?_, ?_⟩
  · intro store now id r
    simp [sweepExpired, List.mem_filter]
  · intro store id r hnd hget
    have hnone : (sweepExpired store (r.expiresAt + 1)).find?
        (fun e => e.1 == id) = none := by
      rw [List.find?_eq_none]
      rintro ⟨xk, xr⟩ hx hbeq
      have hxid : xk = id := by simpa using hbeq
      have hx' := List.mem_filter.mp hx
      have hmem : (id, xr) ∈ store := hxid ▸ hx'.1
      have hr : xr = r :=
        mem_unique_of_nodup store hnd id xr r hmem (storeGet_some_mem store id r hget)
      have hcond := hx'.2
      rw [hr] at hcond
      simp at hcond
    unfold storeGet
    rw [hnone]
    rfl

/-- C8, witness: sweeping one second past a concrete record's expiry removes it,
and a subsequent get returns nothing. -/
theorem c8_sweep_exact_witness :
    storeGet (sweepExpired
        [("a", (⟨"p", "123456", 300, false, none, 10⟩ : OtpRecord))] 301) "a"
      = none :=
  c8_sweep_exact.2 [("a", ⟨"p", "123456", 300, false, none, 10⟩)] "a"
    ⟨"p", "123456", 300, false, none, 10⟩ (by decide) (by decide)

/-- C9: a verification without a truthy id never reports `alreadyVerified`,
because the phone-number scan skips consumed records; when every record for the
address is consumed, the request yields `notFound` instead. -/
theorem c9_phone_never_already (store : Store) (now : Nat)
    (ids pn otp : Option String) (hid : truthy ids = false) :
    (verifyOtp store now ids pn otp).1 ≠ .alreadyVerified ∧
    ((∀ e ∈ store, e.2.phoneNumber = pn.getD "" → e.2.verified = true) →
      truthy otp = true →
      (verifyOtp store now ids pn otp).1 = .notFound) := by
  have hres : ∀ id r, resolveRecord store ids pn = some (id, r) →
      r.verified = false := by
    intro id r h
    unfold resolveRecord at h
    rw [if_neg (by simp [hid])] at h
    by_cases h2 : truthy pn = true
    · rw [if_pos h2] at h
      exact (findLatestEntry_sound store _ id r h).2.2.1
    · rw [if_neg h2] at h
      cases h
  constructor
  · unfold verifyOtp
    by_cases hotp : truthy otp = true
    · rw [hotp]
      simp only [Bool.not_true]
      rw [if_neg (by simp)]
      cases hr : resolveRecord store ids pn with
      | none => simp
      | some e =>
        obtain ⟨id, r⟩ := e
        have hver := hres id r hr
        by_cases h1 : r.expiresAt < now
        · simp [h1]
        · by_cases h3 : (r.otp == otp.getD "") = true
          · simp [h1, hver, h3]
          · simp [h1, hver, h3]
    · have h' : truthy otp = false := by simpa using hotp
      rw [h']
      simp
  · intro hall hotp
    have hnone : resolveRecord store ids pn = none := by
      unfold resolveRecord
      rw [if_neg (by simp [hid])]
      by_cases h2 : truthy pn = true
      · rw [if_pos h2]
        apply findLatestEntry_eq_none
        intro e he
        unfold qualifies
        by_cases hp : (e.2.phoneNumber == pn.getD "") = true
        · have := hall e he (by simpa using hp)
          simp [hp, this]
        · simp [hp]
      · rw [if_neg h2]
    unfold verifyOtp
    rw [hotp]
    simp only [Bool.not_true]
    rw [if_neg (by simp), hnone]

/-- C9, witness: a store whose only record for the address is already consumed
yields `notFound` on a phone-number verification, not `alreadyVerified`. -/
theorem c9_phone_never_already_witness :
    (verifyOtp [("a", (⟨"p", "123456", 300, true, some 50, 10⟩ : OtpRecord))] 100
        none (some "p") (some "123456")).1 = .notFound :=
  (c9_phone_never_already
      [("a", ⟨"p", "123456", 300, true, some 50, 10⟩)] 100 none (some "p")
      (some "123456") rfl).2 (by decide) rfl

/-- C10: when `verifyOtp` is called with a non-empty id, the submitted phone
number has no effect: two requests identical except for the phone-number field
produce the same result and the same store. -/
theorem c10_phone_ignored_by_id (store : Store) (now : Nat) (id : String)
    (pn1 pn2 otp : Option String) (hid : id ≠ "") :
    verifyOtp store now (some id) pn1 otp = verifyOtp store now (some id) pn2 otp := by
  have h : truthy (some id) = true := by simp [truthy, hid]
  unfold verifyOtp resolveRecord
  rw [h]
  simp

/-- C10, witness: a concrete by-id verification returns the same outcome for two
different submitted phone numbers. -/
theorem c10_phone_ignored_by_id_witness :
    verifyOtp [("a", (⟨"p", "123456", 300, false, none, 10⟩ : OtpRecord))] 100
        (some "a") (some "zzz") (some "123456") =
      verifyOtp [("a", (⟨"p", "123456", 300, false, none, 10⟩ : OtpRecord))] 100
        (some "a") (some "yyy") (some "123456") :=
  c10_phone_ignored_by_id [("a", ⟨"p", "123456", 300, false, none, 10⟩)] 100 "a"
    (some "zzz") (some "yyy") (some "123456") (by decide)

end SimpleOtp
